import Mathlib

/-!
Verification of the Progressive SAC learning core (`progressive_sac.py`).

The development shallowly embeds the components the specification talks
about:

* `PrioritizedReplayBuffer` — the circular prioritized replay buffer with a
  per-regime index of slots (`push`, `sample`, `update_priorities`).
  Machine floats are modelled by `ℚ`; the float power (`**`) used for the
  priority exponent and the importance-sampling exponent is threaded in as
  an explicit function parameter `qpow`, and the pseudo-random draws of
  `np.random.choice` are threaded in as a list of rationals in `[0,1)`
  turned into indices by inverse-CDF selection.
* The critic-update arithmetic of `ProgressiveSAC._update_critics`
  (soft Bellman target and weighted mean-squared-error losses), with the
  networks abstracted as function arguments.
* `ProgressiveNetwork.__init__` / `increase_complexity` / `forward` at the
  level of layer shapes (which stage sub-networks exist and which one the
  forward pass routes through).
* The agent (`ProgressiveSAC`) with its policy network, critics, curriculum
  state and persistence; network tensors are modelled over `ℝ`, with the
  library layers (LayerNorm, BatchNorm, the linear stacks) abstracted as
  function-valued parameters and every source of randomness (mean noise,
  dropout mask, reparameterization draw, uniform exploration draws)
  threaded in explicitly.
-/

set_option maxHeartbeats 1000000

namespace ProgSAC

/-! ## Transition store: `PrioritizedReplayBuffer` (lines 32–121) -/

/-- One stored transition (the `Transition` namedtuple, line 29). -/
structure Transition where
  state : List ℚ
  action : List ℚ
  reward : ℚ
  nextState : List ℚ
  isDone : Bool
  regime : ℤ
deriving Repr, DecidableEq, Inhabited

/-- State of `PrioritizedReplayBuffer` (`__init__`, lines 36–46).
`priorities` always has length `capacity` (the `np.zeros((capacity,))`
array); `buffer` grows up to `capacity`; `regimeIndices` is the
`regime_indices` dict, modelled as an insertion-ordered association list
from regime id to the list of slot positions. -/
structure PrioritizedReplayBuffer where
  capacity : ℕ
  buffer : List Transition
  position : ℕ
  priorities : List ℚ
  alpha : ℚ
  betaStart : ℚ
  betaFrames : ℕ
  frame : ℕ
  regimeIndices : List (ℤ × List ℕ)
deriving Repr, DecidableEq

/-- Fresh buffer: `PrioritizedReplayBuffer(capacity)` with the default
`alpha=0.6`, `beta_start=0.4`, `beta_frames=100000`. -/
def mkBuffer (capacity : ℕ) : PrioritizedReplayBuffer :=
  { capacity := capacity
    buffer := []
    position := 0
    priorities := List.replicate capacity 0
    alpha := 6/10
    betaStart := 4/10
    betaFrames := 100000
    frame := 1
    regimeIndices := [] }

/-- Maximum of a list of rationals (`np.max` over the priority array);
`0` on the empty list, which never occurs for a positive capacity. -/
def listMax (l : List ℚ) : ℚ := l.foldr max 0

namespace PrioritizedReplayBuffer

/-- `self.regime_indices[regime]` lookup. -/
def regimeSlots (b : PrioritizedReplayBuffer) (r : ℤ) : Option (List ℕ) :=
  b.regimeIndices.lookup r

/-- `if regime not in self.regime_indices: self.regime_indices[regime] = []`
(lines 58–59): dict insertion appends a fresh key at the end. -/
def addRegimeKey (m : List (ℤ × List ℕ)) (r : ℤ) : List (ℤ × List ℕ) :=
  if (m.lookup r).isSome then m else m ++ [(r, [])]

/-- `self.regime_indices[regime].append(self.position)` (line 61). -/
def appendSlot (m : List (ℤ × List ℕ)) (r : ℤ) (pos : ℕ) : List (ℤ × List ℕ) :=
  m.map fun p => if p.1 = r then (p.1, p.2 ++ [pos]) else p

/-- Lines 63–65: for every regime `r ≠ regime`, if the inserted position is
present in `r`'s list, `list.remove(position)` deletes its FIRST occurrence
(`List.erase`). -/
def removeSlotElsewhere (m : List (ℤ × List ℕ)) (r : ℤ) (pos : ℕ) :
    List (ℤ × List ℕ) :=
  m.map fun p => if p.1 ≠ r ∧ pos ∈ p.2 then (p.1, p.2.erase pos) else p

/-- `push(state, action, reward, next_state, done, regime)` (lines 48–67). -/
def push (b : PrioritizedReplayBuffer) (t : Transition) : PrioritizedReplayBuffer :=
  let maxPrio : ℚ := if b.buffer.isEmpty then 1 else listMax b.priorities
  let buf1 := if b.buffer.length < b.capacity then b.buffer ++ [default] else b.buffer
  let buf2 := buf1.set b.position t
  let prios := b.priorities.set b.position maxPrio
  let m1 := addRegimeKey b.regimeIndices t.regime
  let m2 := appendSlot m1 t.regime b.position
  let m3 := removeSlotElsewhere m2 t.regime b.position
  { b with
    buffer := buf2
    priorities := prios
    regimeIndices := m3
    position := (b.position + 1) % b.capacity }

/-- Inverse-CDF index selection: one draw of `np.random.choice(·, p=probs)`
given a uniform draw `u ∈ [0,1)`.  Only indices of positive probability can
be returned for `u` in range. -/
def cdfPickAux : List ℚ → ℚ → ℕ → ℕ
  | [], _, i => i
  | p :: ps, u, i => if u < p then i else cdfPickAux ps (u - p) (i + 1)

/-- Pick an index into `probs` from the uniform draw `u`. -/
def cdfPick (probs : List ℚ) (u : ℚ) : ℕ := cdfPickAux probs u 0

/-- `probs /= probs.sum()` normalization. -/
def normalizeQ (l : List ℚ) : List ℚ := l.map (· / l.sum)

/-- Return triple of `sample`: the batch, the sampled slot indices and the
normalized importance-sampling weights. -/
structure SampleResult where
  batch : List Transition
  indices : List ℕ
  weights : List ℚ
deriving Repr, DecidableEq

/-- The pool of priorities `sample` works over (lines 71–74). -/
def samplePool (b : PrioritizedReplayBuffer) : List ℚ :=
  if b.buffer.length = b.capacity then b.priorities else b.priorities.take b.position

/-- `sample(batch_size, regime)` (lines 69–113).  `qpow` is the float
power `**` (used with exponents `alpha` and `-beta`); `us` are the uniform
draws behind `np.random.choice`.

The branch for a supplied regime with at least one stored slot (lines
76–89) computes the split sizes and draws both index groups, but the
weight computation on line 98 then reads the local variable `probs`,
which that branch never assigns (only the `else` branch on line 91 does);
the Python call dies with `UnboundLocalError`.  The model returns `none`
there after performing the same intermediate computations. -/
def sample (qpow : ℚ → ℚ → ℚ) (b : PrioritizedReplayBuffer) (batchSize : ℕ)
    (regime : Option ℤ) (us : List ℚ) :
    Option (SampleResult × PrioritizedReplayBuffer) :=
  let prios := samplePool b
  let beta := b.betaStart + (1 - b.betaStart) * ((b.frame : ℚ) / (b.betaFrames : ℚ))
  let frame' := min (b.frame + 1) b.betaFrames
  let runGeneral : Option (SampleResult × PrioritizedReplayBuffer) :=
    let probs := normalizeQ (prios.map (fun p => qpow p b.alpha))
    let indices := (us.take batchSize).map (cdfPick probs)
    let wRaw := indices.map (fun i => qpow ((b.buffer.length : ℚ) * probs.getD i 0) (-beta))
    let weights := wRaw.map (· / listMax wRaw)
    let batch := indices.map (fun i => b.buffer.getD i default)
    some (⟨batch, indices, weights⟩, { b with frame := frame' })
  match regime with
  | some r =>
    match b.regimeIndices.lookup r with
    | some lst =>
      if 0 < lst.length then
        let regimeSize := min (batchSize / 2) lst.length
        let _generalSize := batchSize - regimeSize
        let regimeProbs := normalizeQ (lst.map (fun i => qpow (prios.getD i 0) b.alpha))
        let _regimeIdx := (us.take regimeSize).map (fun u => lst.getD (cdfPick regimeProbs u) 0)
        let _generalProbs := normalizeQ (prios.map (fun p => qpow p b.alpha))
        -- line 98: `weights = (len(self.buffer) * probs[indices]) ** (-beta)`
        -- with `probs` unbound in this branch: UnboundLocalError.
        none
      else runGeneral
    | none => runGeneral
  | none => runGeneral

/-- `update_priorities(indices, priorities)` (lines 115–118). -/
def updatePriorities (b : PrioritizedReplayBuffer) (indices : List ℕ)
    (newPrios : List ℚ) : PrioritizedReplayBuffer :=
  { b with
    priorities := (indices.zip newPrios).foldl (fun l p => l.set p.1 p.2) b.priorities }

end PrioritizedReplayBuffer

/-! ### Claims C1 and C2 -/

/-- A transition with the given regime and trivial payload. -/
def mkTrans (r : ℤ) : Transition :=
  { state := [0], action := [0], reward := 0, nextState := [0], isDone := false, regime := r }

/-- Identity-like stand-in for the float power `**` used when evaluating
the model at concrete inputs (the failing run never reaches a point where
the value of the power matters). -/
def qpowLin (x : ℚ) (_e : ℚ) : ℚ := x

/-- Buffer of capacity 5 holding two transitions, both tagged regime 2. -/
def c1Buffer : PrioritizedReplayBuffer :=
  PrioritizedReplayBuffer.push (PrioritizedReplayBuffer.push (mkBuffer 5) (mkTrans 2)) (mkTrans 2)

/-- C1: evaluated at a buffer that holds `batch_size = 2` transitions of
regime 2, the regime-aware call `sample(2, regime=2)` does not return a
batch at all: the branch reads the unassigned local `probs` when forming
the importance-sampling weights (line 98), so the Python call raises
`UnboundLocalError` — against the claim that it returns exactly
`batch_size` transitions with normalized weights. -/
theorem sample_regime_branch_unbound_local :
    PrioritizedReplayBuffer.sample qpowLin c1Buffer 2 (some 2) [0, 1/2] = none := by
  rfl

/-- Capacity-1 buffer after pushing regimes 1, 1, 2 in that order. -/
def c2Buffer : PrioritizedReplayBuffer :=
  PrioritizedReplayBuffer.push
    (PrioritizedReplayBuffer.push
      (PrioritizedReplayBuffer.push (mkBuffer 1) (mkTrans 1)) (mkTrans 1))
    (mkTrans 2)

/-- C2: pushing regimes `[1, 1, 2]` into a capacity-1 buffer leaves slot 0
in BOTH regime 1's and regime 2's index.  The second push appends a
duplicate `0` to regime 1's list (the slot is re-inserted under its own
regime without being removed first), and the third push's
`list.remove(position)` deletes only the first occurrence, so slot 0
survives in regime 1's set while also being inserted into regime 2's —
against the claim that the inserted slot is contained in no other regime's
index set. -/
theorem push_one_slot_one_regime_violated :
    c2Buffer.regimeIndices.lookup 1 = some [0] ∧
      c2Buffer.regimeIndices.lookup 2 = some [0] := by
  constructor <;> rfl

/-! ## Critic update arithmetic: `ProgressiveSAC._update_critics` (lines 548–579, C4)

The four critics, the policy sampler and its log-probability are abstracted
as function arguments.  The batch tensors are modelled WITH their source
shapes, because the shapes matter here: `sample` returns `rewards`,
`dones` and `weights` as shape-`[B]` tensors (lines 104–111), while the
critic Q-values and the summed log-probabilities are shape-`[B,1]`
columns (`nn.Linear(·,1)` heads, `log_prob.sum(-1, keepdim=True)`), so
line 561 and lines 566–570 broadcast `[B]` against `[B,1]` into `[B,B]`
matrices.  Tensors are modelled as 2-D shapes with a total entry
function; a shape-`[B]` vector participates in broadcasting as `1×B`
(torch aligns trailing dimensions) and a `[B,1]` column as `B×1`. -/

/-- A state or action vector in the critic-update arithmetic. -/
abbrev Vecq := List ℚ

namespace UpdateCritics

/-- A 2-D float tensor: a shape plus a total entry function (entries
outside the shape are never read). -/
structure TensorQ where
  rows : ℕ
  cols : ℕ
  entry : ℕ → ℕ → ℚ

/-- An elementwise binary op under PyTorch broadcasting: a size-1
dimension is stretched across the other operand's extent.  For the
compatible shapes used here (each dimension pair equal or containing 1)
this is exactly torch's semantics. -/
def bcast (f : ℚ → ℚ → ℚ) (t u : TensorQ) : TensorQ :=
  { rows := max t.rows u.rows
    cols := max t.cols u.cols
    entry := fun i j =>
      f (t.entry (if t.rows = 1 then 0 else i) (if t.cols = 1 then 0 else j))
        (u.entry (if u.rows = 1 then 0 else i) (if u.cols = 1 then 0 else j)) }

/-- A shape-`[B]` tensor (rewards, dones, weights as returned by
`sample`): broadcasting aligns it as `1×B`. -/
def vecT (l : List ℚ) : TensorQ := ⟨1, l.length, fun _ j => l.getD j 0⟩

/-- A shape-`[B,1]` per-sample column (Q-values, summed log-probs). -/
def colT (l : List ℚ) : TensorQ := ⟨l.length, 1, fun i _ => l.getD i 0⟩

/-- `.mean()`: the average over ALL `rows·cols` entries. -/
def meanT (t : TensorQ) : ℚ :=
  (((List.range t.rows).map fun i =>
    ((List.range t.cols).map fun j => t.entry i j).sum).sum) / (t.rows * t.cols : ℕ)

/-- Lines 556–559 as the per-sample `[B,1]` column they produce (all ops
there are elementwise between `[B,1]` tensors and the `[1]` temperature):
`next_q = torch.min(next_q1_main, next_q2_main)` then
`next_q = next_q - alpha * next_log_probs`. -/
def nextQCol (alphaT : ℚ) (nq1 nq2 nlogp : List ℚ) : List ℚ :=
  List.zipWith (fun q lp => q - alphaT * lp) (List.zipWith min nq1 nq2) nlogp

/-- Line 561 with the source's shapes:
`target_q = rewards + (1 - dones) * self.gamma * next_q` where
`rewards`/`dones` are `[B]` and `next_q` is `[B,1]` — the product and sum
broadcast into a `[B,B]` matrix with
`target_q[i,j] = r_j + (1 - done_j)·γ·next_q_i`, mixing samples. -/
def targetQT (gamma : ℚ) (rewards dones nq : List ℚ) : TensorQ :=
  bcast (· + ·) (vecT rewards)
    (bcast (· * ·) (vecT (dones.map fun d => (1 - d) * gamma)) (colT nq))

/-- Lines 566–570 with the source's shapes:
`(F.mse_loss(current_q, target_q, reduction=none) * weights).mean()` —
the `[B,1]` prediction broadcasts against the `[B,B]` target, the `[B]`
weights broadcast across the result, and `.mean()` averages all `B²`
entries. -/
def criticLossT (w cq : List ℚ) (target : TensorQ) : ℚ :=
  meanT (bcast (· * ·) (bcast (fun a b => (a - b) ^ 2) (colT cq) target) (vecT w))

/-- The loss computation of `_update_critics` (lines 548–571) with the
source's tensor shapes: resample next actions and log-probabilities from
the current policy at the next states, form the (broadcast) Bellman
target from the minimum of the two target critics, and apply the
weighted mean-squared-error reduction to both critics.
Returns `(q1_loss, q2_loss)`. -/
def updateCriticsLossesT (gamma alphaT : ℚ)
    (q1t q2t q1 q2 : Vecq → Vecq → ℚ) (polA : Vecq → Vecq) (polLP : Vecq → ℚ)
    (states actions nextStates : List Vecq) (rewards dones w : List ℚ) : ℚ × ℚ :=
  let nextActions := nextStates.map polA
  let nextLogProbs := nextStates.map polLP
  let nq1m := List.zipWith q1t nextStates nextActions
  let nq2m := List.zipWith q2t nextStates nextActions
  let nq := nextQCol alphaT nq1m nq2m nextLogProbs
  let tq := targetQT gamma rewards dones nq
  let cq1 := List.zipWith q1 states actions
  let cq2 := List.zipWith q2 states actions
  (criticLossT w cq1 tq, criticLossT w cq2 tq)

/-- Modelled from the claim's words: the per-sample soft Bellman target
`target_i = r_i + (1 - done_i)·γ·(min(Q1t, Q2t)(s'_i, a'_i) − α·log_prob(a'_i|s'_i))`
with `a'_i` resampled from the current policy at `s'_i`. -/
def bellmanTargetSpec (gamma alphaT : ℚ) (q1t q2t : Vecq → Vecq → ℚ)
    (polA : Vecq → Vecq) (polLP : Vecq → ℚ)
    (rewards dones : List ℚ) (nextStates : List Vecq) (i : ℕ) : ℚ :=
  let s' := nextStates.getD i []
  let a' := polA s'
  rewards.getD i 0 +
    (1 - dones.getD i 0) * gamma * (min (q1t s' a') (q2t s' a') - alphaT * polLP s')

/-- Modelled from the claim's words: the mean over the batch of the
importance-sampling weight times the squared error between the critic's
`Q(s_i, a_i)` and `target_i`. -/
def criticLossSpec (n : ℕ) (w : List ℚ) (qf : Vecq → Vecq → ℚ)
    (states actions : List Vecq) (tgt : ℕ → ℚ) : ℚ :=
  (((List.range n).map fun i =>
    w.getD i 0 * (qf (states.getD i []) (actions.getD i []) - tgt i) ^ 2).sum) / n

/-- C4: evaluated at a two-sample batch (γ=1, α=0, rewards `[0,1]`,
dones `[0,0]`, weights `[1,1]`, per-sample next-Q column `[0,1]`, both
critics constantly 0), the code's loss is the mean of the `2×2` broadcast
matrix, `3/2` — the `[B]`-shaped rewards/dones/weights broadcast against
the `[B,1]` Q-columns, so `target_q[i,j] = r_j + (1-done_j)·γ·next_q_i`
mixes samples — whereas the claimed per-sample weighted mean of squared
errors is `2`.  The code diverges from the claim on every batch of two
or more samples. -/
theorem updateCritics_broadcast_mixes_samples :
    updateCriticsLossesT 1 0 (fun s _ => s.sum) (fun s _ => s.sum)
        (fun _ _ => 0) (fun _ _ => 0) (fun s => s) (fun _ => 0)
        [[0], [0]] [[0], [0]] [[0], [1]] [0, 1] [0, 0] [1, 1] = (3/2, 3/2) ∧
    criticLossSpec 2 [1, 1] (fun _ _ => 0) [[0], [0]] [[0], [0]]
      (bellmanTargetSpec 1 0 (fun s _ => s.sum) (fun s _ => s.sum)
        (fun s => s) (fun _ => 0) [0, 1] [0, 0] [[0], [1]]) = 2 ∧
    ((3/2 : ℚ) ≠ 2) := by
  refine ⟨?_, ?_, by norm_num⟩
  · norm_num [updateCriticsLossesT, criticLossT, targetQT, nextQCol, meanT, bcast, vecT, colT,
      List.range_succ]
  · norm_num [criticLossSpec, bellmanTargetSpec, List.range_succ]

end UpdateCritics

/-! ## `ProgressiveNetwork` construction and routing (lines 124–182, C6)

Modelled at the level of layer shapes: each stage sub-network is the list
of `(in_features, out_features)` pairs of its `nn.Linear` layers. -/

/-- The `nn.ModuleList` built by `ProgressiveNetwork.__init__`
(lines 137–157): stage 1 always, stage 2 only under `max_stages >= 2`,
stage 3 only under `max_stages >= 3` — and nothing beyond stage 3,
whatever `max_stages` is. -/
def stageNetworks (inputDim h0 h1 outputDim : ℕ) (maxStages : ℕ) :
    List (List (ℕ × ℕ)) :=
  [[(inputDim, h0), (h0, outputDim)]] ++
    (if 2 ≤ maxStages then [[(inputDim, h0), (h0, h0), (h0, outputDim)]] else []) ++
    (if 3 ≤ maxStages then [[(inputDim, h0), (h0, h1), (h1, h0), (h0, outputDim)]] else [])

/-- Shape-level state of a `ProgressiveNetwork`. -/
structure PNet where
  inputDim : ℕ
  outputDim : ℕ
  h0 : ℕ
  h1 : ℕ
  stage : ℕ
  maxStages : ℕ
  networks : List (List (ℕ × ℕ))
deriving Repr, DecidableEq

/-- `ProgressiveNetwork(input_dim, output_dim, hidden_dims, stage=1,
max_stages)` with the default initial stage 1. -/
def mkPNet (inputDim outputDim h0 h1 maxStages : ℕ) : PNet :=
  { inputDim := inputDim, outputDim := outputDim, h0 := h0, h1 := h1
    stage := 1, maxStages := maxStages
    networks := stageNetworks inputDim h0 h1 outputDim maxStages }

namespace PNet

/-- `increase_complexity` (lines 171–182): advance the stage if below
`max_stages`, otherwise a logged no-op. -/
def increaseComplexity (p : PNet) : PNet :=
  if p.stage < p.maxStages then { p with stage := p.stage + 1 } else p

/-- `forward` (lines 159–169) routes through
`self.networks[self.stage - 1]`; `none` models the `IndexError` raised
when that stage sub-network was never constructed. -/
def forwardRoute (p : PNet) : Option (List (ℕ × ℕ)) :=
  p.networks.get? (p.stage - 1)

/-- `increase_complexity` leaves the constructed module list untouched. -/
theorem increase_networks (p : PNet) :
    (increaseComplexity p).networks = p.networks := by
  unfold increaseComplexity; split <;> rfl

/-- `increase_complexity` never changes `max_stages`. -/
theorem increase_maxStages (p : PNet) :
    (increaseComplexity p).maxStages = p.maxStages := by
  unfold increaseComplexity; split <;> rfl

/-- The stage transition of `increase_complexity`. -/
theorem increase_stage (p : PNet) :
    (increaseComplexity p).stage =
      if p.stage < p.maxStages then p.stage + 1 else p.stage := by
  unfold increaseComplexity; split <;> rfl

/-- Iterating `increase_complexity` preserves the module list. -/
theorem iterate_networks (k : ℕ) (p : PNet) :
    (increaseComplexity^[k] p).networks = p.networks := by
  induction k generalizing p with
  | zero => rfl
  | succ k ih => rw [Function.iterate_succ_apply, ih, increase_networks]

/-- Iterating `increase_complexity` preserves `max_stages`. -/
theorem iterate_maxStages (k : ℕ) (p : PNet) :
    (increaseComplexity^[k] p).maxStages = p.maxStages := by
  induction k generalizing p with
  | zero => rfl
  | succ k ih => rw [Function.iterate_succ_apply, ih, increase_maxStages]

/-- Along any run the active stage stays within `[1, max_stages]`. -/
theorem stage_bounds (k : ℕ) (p : PNet) (h1 : 1 ≤ p.stage)
    (h2 : p.stage ≤ p.maxStages) :
    1 ≤ (increaseComplexity^[k] p).stage ∧
      (increaseComplexity^[k] p).stage ≤ (increaseComplexity^[k] p).maxStages := by
  induction k generalizing p with
  | zero => exact ⟨h1, h2⟩
  | succ k ih =>
    rw [Function.iterate_succ_apply]
    apply ih
    · rw [increase_stage]; split <;> omega
    · rw [increase_stage, increase_maxStages]; split <;> omega

end PNet

/-- C6 counterexample: with `max_stages = 4` the constructor builds only 3
stage networks, and after three `increase_complexity` calls the active
stage is 4, whose network was never constructed: `forward` has nothing to
route through (`IndexError`), against the claim that one stage network
exists for each stage `1..max_stages` for every `max_stages ≥ 1`. -/
theorem progressiveNetwork_stage4_unbuilt :
    (mkPNet 10 4 256 256 4).networks.length = 3 ∧
      (PNet.increaseComplexity^[3] (mkPNet 10 4 256 256 4)).stage = 4 ∧
      (PNet.increaseComplexity^[3] (mkPNet 10 4 256 256 4)).forwardRoute = none := by
  refine ⟨by decide, by decide, by decide⟩

/-- C6 (amended): the constructor eagerly builds `min max_stages 3` stage
networks (one per stage only up to stage 3); for `1 ≤ max_stages ≤ 3` —
which covers every construction in the repository, all of which use
`max_stages = 3` — the forward pass after any number of
`increase_complexity` calls always routes through a constructed stage
network. -/
theorem progressiveNetwork_eager_stages (inputDim outputDim h0 h1 ms : ℕ)
    (hms1 : 1 ≤ ms) (hms3 : ms ≤ 3) (k : ℕ) :
    (mkPNet inputDim outputDim h0 h1 ms).networks.length = min ms 3 ∧
      ((PNet.increaseComplexity^[k] (mkPNet inputDim outputDim h0 h1 ms)).forwardRoute).isSome = true := by
  have hlen : (mkPNet inputDim outputDim h0 h1 ms).networks.length = ms := by
    simp only [mkPNet, stageNetworks]
    interval_cases ms <;> simp
  have hb := PNet.stage_bounds k (mkPNet inputDim outputDim h0 h1 ms) (by rfl) (by simpa [mkPNet] using hms1)
  rw [PNet.iterate_maxStages] at hb
  constructor
  · rw [hlen]; exact (Nat.min_eq_left hms3).symm
  · rw [PNet.forwardRoute, PNet.iterate_networks, List.get?_eq_getElem?]
    have hmsEq : (mkPNet inputDim outputDim h0 h1 ms).maxStages = ms := rfl
    rw [hmsEq] at hb
    have hlt : (PNet.increaseComplexity^[k] (mkPNet inputDim outputDim h0 h1 ms)).stage - 1 <
        (mkPNet inputDim outputDim h0 h1 ms).networks.length := by
      rw [hlen]; omega
    rw [List.getElem?_eq_getElem hlt]; rfl

/-- Witness for the amended C6 at `max_stages = 3` after five
`increase_complexity` calls. -/
theorem progressiveNetwork_eager_stages_witness :
    (mkPNet 10 4 256 256 3).networks.length = min 3 3 ∧
      ((PNet.increaseComplexity^[5] (mkPNet 10 4 256 256 3)).forwardRoute).isSome = true :=
  progressiveNetwork_eager_stages 10 4 256 256 3 (by decide) (by decide) 5

/-! ## Policy network, critics and the agent orchestrator (C3, C5, C7–C10)

Network tensors are modelled over `ℝ`.  The torch library layers
(`nn.LayerNorm`, `nn.BatchNorm1d`, the `nn.Linear` stacks of the
progressive base) are abstracted as function-valued parameters; the
module-level logic of `progressive_sac.py` (regime lookup, transition
smoothing, dropout gating, noise injection, clamping, chunking, tanh
squashing, the orchestrator control flow) is modelled concretely.  Every
random draw the torch code makes is threaded in as an explicit input. -/

noncomputable section
open Classical

/-- A float tensor, modelled as a list of reals. -/
abbrev Vec := List ℝ

/-- `torch.clamp(v, lo, hi)` elementwise. -/
def clampV (lo hi : ℝ) (v : Vec) : Vec := v.map fun x => min hi (max lo x)

/-- Elementwise three-way combination of equal-length tensors. -/
def zipWith3 (f : ℝ → ℝ → ℝ → ℝ) (a b c : Vec) : Vec :=
  List.zipWith (fun p z => f p.1 p.2 z) (a.zip b) c

/-- The parameters of `ProgressivePolicyNetwork` that live in its
`state_dict()` (and so are persisted by `save`/`load`): the input
LayerNorm, the per-regime BatchNorm instances (the `regime_bn`
`nn.ModuleDict` keyed "1","2","3", line 218–220), and the stage
sub-networks of the progressive base (one function per stage, producing
the concatenated `[mean, log_std]` output). -/
structure PolicyStateDict where
  layerNormF : Vec → Vec
  regimeBNF : ℤ → Option (Vec → Vec)
  trunks : List (Vec → Vec)

/-- Full runtime state of `ProgressivePolicyNetwork`, including the plain
attributes that are NOT part of `state_dict()` and hence not persisted:
the active `stage` of the progressive base, `log_alpha` (a bare tensor,
not a registered parameter), `regime_log_alphas` (a plain dict), the
regime-transition smoothing state (`last_regime`,
`regime_transition_buffer`, lines 223–225) and the train/eval flag. -/
structure PolicyNetwork where
  sd : PolicyStateDict
  stage : ℕ
  maxStages : ℕ
  actionDim : ℕ
  logStdMin : ℝ
  logStdMax : ℝ
  maxTransitionBuffer : ℕ
  logAlpha : ℝ
  regimeLogAlphas : List (ℤ × ℝ)
  lastRegime : Option ℤ
  transitionBuffer : List (ℤ × ℤ)
  training : Bool

/-- `ProgressivePolicyNetwork(state_dim, action_dim, ..., stage=1,
max_stages=3)` as constructed by the agent (line 444–445), with the given
freshly initialized parameters. -/
def mkPolicy (sd : PolicyStateDict) (actionDim : ℕ) : PolicyNetwork :=
  { sd := sd, stage := 1, maxStages := 3, actionDim := actionDim
    logStdMin := -20, logStdMax := 2, maxTransitionBuffer := 10
    logAlpha := 0, regimeLogAlphas := [], lastRegime := none
    transitionBuffer := [], training := true }

/-- The random draws one policy forward/sample pass consumes:
`torch.randn_like(mean)` for the mean noise of line 269, the dropout
multiplicative mask (already scaled by `1/(1-p)`), and the standard normal
draw behind `normal.rsample()`. -/
structure ForwardRand where
  meanNoise : Vec
  dropMask : Vec
  zeta : Vec

/-- `all(t[0] != t[1] for t in self.regime_transition_buffer[-3:])`
(lines 251–252). -/
def alternatingLast3 (tb : List (ℤ × ℤ)) : Bool :=
  (tb.drop (tb.length - 3)).all fun p => p.1 != p.2

/-- `ProgressivePolicyNetwork.forward(state, regime)` (lines 230–275).
Returns the (mean, log_std) pair and the policy with its smoothing state
updated.  Steps: LayerNorm; optional regime BatchNorm; regime-transition
smoothing (append to the bounded transition buffer, dampen the input by
0.9 under rapid alternation); `last_regime` update; dropout when in
training mode; the active stage network; chunk into mean/log_std; clamp
log_std to `[log_std_min, log_std_max]`; add `0.01`-scaled Gaussian noise
to the mean (line 269, unconditional — active in eval mode too); clamp
mean to `[-10,10]` and log_std to `[-20,2]`. -/
def policyForward (p : PolicyNetwork) (state : Vec) (regime : Option ℤ)
    (rnd : ForwardRand) : (Vec × Vec) × PolicyNetwork :=
  let s1 := p.sd.layerNormF state
  let step : Vec × Option ℤ × List (ℤ × ℤ) :=
    match regime with
    | none => (s1, p.lastRegime, p.transitionBuffer)
    | some r =>
      let s2 := match p.sd.regimeBNF r with
        | some f => f s1
        | none => s1
      let smoothed : Vec × List (ℤ × ℤ) :=
        match p.lastRegime with
        | some prev =>
          if prev ≠ r then
            let tb1 := p.transitionBuffer ++ [(prev, r)]
            let tb2 := if p.maxTransitionBuffer < tb1.length then tb1.drop 1 else tb1
            (if 3 ≤ tb2.length ∧ alternatingLast3 tb2 then s2.map (· * (9/10)) else s2, tb2)
          else (s2, p.transitionBuffer)
        | none => (s2, p.transitionBuffer)
      (smoothed.1, some r, smoothed.2)
  let sDrop := if p.training then List.zipWith (· * ·) step.1 rnd.dropMask else step.1
  let x := (p.sd.trunks.getD (p.stage - 1) fun _ => []) sDrop
  let mean0 := x.take p.actionDim
  let logStd0 := x.drop p.actionDim
  let logStd1 := clampV p.logStdMin p.logStdMax logStd0
  let mean1 := List.zipWith (fun m z => m + z * (1/100)) mean0 rnd.meanNoise
  ((clampV (-10) 10 mean1, clampV (-20) 2 logStd1),
   { p with lastRegime := step.2.1, transitionBuffer := step.2.2 })

/-- `ProgressivePolicyNetwork.sample(state, regime)` (lines 277–311):
re-clamp mean and log_std, exponentiate, reparameterized draw
`x_t = mean + std·ζ`, tanh squashing, and the squashed log-probability
with the Jacobian correction.  (The NaN guards of lines 289–292 and
307–309 cannot fire in the real-valued model.)  Returns
`((action, log_prob, mean), updated policy)`. -/
def policySample (p : PolicyNetwork) (state : Vec) (regime : Option ℤ)
    (rnd : ForwardRand) : (Vec × ℝ × Vec) × PolicyNetwork :=
  let fw := policyForward p state regime rnd
  let mean := clampV (-10) 10 fw.1.1
  let logStd := clampV (-20) 2 fw.1.2
  let std := logStd.map Real.exp
  let xt := zipWith3 (fun m s z => m + s * z) mean std rnd.zeta
  let action := xt.map Real.tanh
  let logProbTerms := zipWith3
    (fun m s x => -((x - m) ^ 2) / (2 * s ^ 2) - Real.log s - Real.log (Real.sqrt (2 * Real.pi)))
    mean std xt
  let corr := action.map fun a => Real.log (1 - a ^ 2 + 1/1000000)
  ((action, (List.zipWith (· - ·) logProbTerms corr).sum, mean), fw.2)

/-- `ProgressiveNetwork.increase_complexity` as it acts on the policy
(lines 171–179): advance the stage when below `max_stages`. -/
def policyIncreaseComplexity (p : PolicyNetwork) : PolicyNetwork :=
  if p.stage < p.maxStages then { p with stage := p.stage + 1 } else p

/-- `HierarchicalCriticNetwork` (lines 362–417): shared feature net plus
main/horizon/risk heads and the lazily grown per-regime heads, with the
tensor layers abstracted as functions. -/
structure HierarchicalCriticNetwork where
  featureNet : Vec → Vec
  mainHead : Vec → ℝ
  shortTermHead : Vec → ℝ
  mediumTermHead : Vec → ℝ
  longTermHead : Vec → ℝ
  riskHead : Vec → ℝ
  regimeHeads : List (ℤ × (Vec → ℝ))

/-- `HierarchicalCriticNetwork.forward` (lines 389–406). -/
def criticForward (c : HierarchicalCriticNetwork) (state action : Vec)
    (regime : Option ℤ) : ℝ × (ℝ × ℝ × ℝ) × Option ℝ × ℝ :=
  let features := c.featureNet (state ++ action)
  (c.mainHead features,
   (c.shortTermHead features, c.mediumTermHead features, c.longTermHead features),
   regime.bind (fun r => (c.regimeHeads.lookup r).map fun h => h features),
   c.riskHead features)

/-- `add_regime_head(regime)` (lines 413–417): idempotent growth with a
freshly initialized linear head `h`. -/
def addRegimeHead (c : HierarchicalCriticNetwork) (r : ℤ) (h : Vec → ℝ) :
    HierarchicalCriticNetwork :=
  if (c.regimeHeads.lookup r).isSome then c
  else { c with regimeHeads := c.regimeHeads ++ [(r, h)] }

/-- Opaque optimizer internal state (`optim.Adam.state_dict()`). -/
abbrev OptimState := List ℝ

/-- Full state of `ProgressiveSAC` (`__init__`, lines 424–494). -/
structure ProgressiveSACAgent where
  stateDim : ℕ
  actionDim : ℕ
  gamma : ℝ
  tau : ℝ
  alphaCoef : ℝ
  batchSize : ℕ
  startSteps : ℕ
  updateAfter : ℕ
  updateEvery : ℕ
  numUpdates : ℕ
  targetUpdateInterval : ℕ
  autoEntropyTuning : Bool
  policy : PolicyNetwork
  critic1 : HierarchicalCriticNetwork
  critic2 : HierarchicalCriticNetwork
  critic1Target : HierarchicalCriticNetwork
  critic2Target : HierarchicalCriticNetwork
  policyOptimizer : OptimState
  critic1Optimizer : OptimState
  critic2Optimizer : OptimState
  replayBuffer : PrioritizedReplayBuffer
  totalSteps : ℕ
  episodes : ℕ
  bestReward : EReal
  currentRegime : Option ℤ
  regimeHistory : List ℤ
  regimeTransitions : List ((ℤ × ℤ) × ℕ)
  curriculumStage : ℕ
  curriculumThresholds : ℕ → ℝ
  explorationNoise : ℝ
  explorationDecay : ℝ
  minExplorationNoise : ℝ
  objReturn : ℝ
  objRisk : ℝ
  objRegimeRobustness : ℝ
  adversarialNoiseScale : ℝ
  adversarialProb : ℝ
  useEnsemble : Bool
  ensemblePolicies : List PolicyNetwork
  ensembleWeights : List ℝ

/-- Freshly initialized network parameters and optimizer states consumed
by the constructor (torch's random weight initialization). -/
structure InitParams where
  policySd : PolicyStateDict
  critic1Init : HierarchicalCriticNetwork
  critic2Init : HierarchicalCriticNetwork
  policyOpt0 : OptimState
  critic1Opt0 : OptimState
  critic2Opt0 : OptimState

/-- `ProgressiveSAC(state_dim, action_dim)` with all keyword defaults
(lines 424–494).  The target critics start as exact copies of the live
critics (lines 453–454); the curriculum threshold table is
`{1: 0.0, 2: 0.5, 3: 0.8}` (lines 471–475); exploration noise starts at
`0.1` with decay `0.9999` and floor `0.01` (lines 477–479); the objective
weights start at `return=1.0, risk=0.5, regime_robustness=0.3`. -/
def mkAgent (stateDim actionDim : ℕ) (init : InitParams) : ProgressiveSACAgent :=
  { stateDim := stateDim, actionDim := actionDim
    gamma := 99/100, tau := 5/1000, alphaCoef := 2/10
    batchSize := 256, startSteps := 10000, updateAfter := 1000, updateEvery := 50
    numUpdates := 1, targetUpdateInterval := 1, autoEntropyTuning := true
    policy := mkPolicy init.policySd actionDim
    critic1 := init.critic1Init, critic2 := init.critic2Init
    critic1Target := init.critic1Init, critic2Target := init.critic2Init
    policyOptimizer := init.policyOpt0
    critic1Optimizer := init.critic1Opt0, critic2Optimizer := init.critic2Opt0
    replayBuffer := mkBuffer 1000000
    totalSteps := 0, episodes := 0, bestReward := ⊥
    currentRegime := none, regimeHistory := [], regimeTransitions := []
    curriculumStage := 1
    curriculumThresholds := fun n => if n = 1 then 0 else if n = 2 then 1/2 else if n = 3 then 4/5 else 0
    explorationNoise := 1/10, explorationDecay := 9999/10000, minExplorationNoise := 1/100
    objReturn := 1, objRisk := 1/2, objRegimeRobustness := 3/10
    adversarialNoiseScale := 1/100, adversarialProb := 1/10
    useEnsemble := false, ensemblePolicies := [], ensembleWeights := [] }

/-- `self.regime_transitions[transition_key] += 1` with dict insertion on
first sight (lines 636–639). -/
def bumpTransitionCount (m : List ((ℤ × ℤ) × ℕ)) (k : ℤ × ℤ) :
    List ((ℤ × ℤ) × ℕ) :=
  if (m.lookup k).isSome then m.map fun p => if p.1 = k then (p.1, p.2 + 1) else p
  else m ++ [(k, 1)]

/-- `add_regime_alpha(regime)` (lines 348–359): record a regime-specific
`log_alpha` initialized from the global one, if absent. -/
def addRegimeAlpha (p : PolicyNetwork) (r : ℤ) : PolicyNetwork :=
  if (p.regimeLogAlphas.lookup r).isSome then p
  else { p with regimeLogAlphas := p.regimeLogAlphas ++ [(r, p.logAlpha)] }

/-- Fresh `nn.Linear(256, 1)` initializations for the four regime heads
grown on a regime transition. -/
structure RegimeHeadInit where
  head1 : Vec → ℝ
  head2 : Vec → ℝ
  head1t : Vec → ℝ
  head2t : Vec → ℝ

/-- `_handle_regime_transition(new_regime)` (lines 633–650). -/
def handleRegimeTransition (a : ProgressiveSACAgent) (newRegime : ℤ)
    (g : RegimeHeadInit) : ProgressiveSACAgent :=
  let rt := match a.currentRegime with
    | some cur => bumpTransitionCount a.regimeTransitions (cur, newRegime)
    | none => a.regimeTransitions
  { a with
    currentRegime := some newRegime
    regimeHistory := a.regimeHistory ++ [newRegime]
    regimeTransitions := rt
    policy := addRegimeAlpha a.policy newRegime
    critic1 := addRegimeHead a.critic1 newRegime g.head1
    critic2 := addRegimeHead a.critic2 newRegime g.head2
    critic1Target := addRegimeHead a.critic1Target newRegime g.head1t
    critic2Target := addRegimeHead a.critic2Target newRegime g.head2t }

/-- The regime pre-step of `select_action` (lines 500–501). -/
def regimeStep (a : ProgressiveSACAgent) (regime : Option ℤ)
    (g : RegimeHeadInit) : ProgressiveSACAgent :=
  match regime with
  | some r => if some r ≠ a.currentRegime then handleRegimeTransition a r g else a
  | none => a

/-- Random draws one `select_action` call consumes: the
`np.random.uniform(-1, 1, action_dim)` pure-exploration draw, the policy
forward draws, and the `np.random.normal(0, noise, action_dim)`
exploration noise. -/
structure ActionRand where
  uniformDraw : Vec
  fwd : ForwardRand
  exploreNoise : Vec

/-- `select_action(state, evaluate, regime)` (lines 496–519). -/
def selectAction (a : ProgressiveSACAgent) (state : Vec) (evaluate : Bool)
    (regime : Option ℤ) (g : RegimeHeadInit) (rnd : ActionRand) :
    Vec × ProgressiveSACAgent :=
  let a1 := regimeStep a regime g
  if evaluate then
    let out := policySample a1.policy state regime rnd.fwd
    (out.1.2.2, { a1 with policy := out.2 })
  else if a1.totalSteps < a1.startSteps then
    (rnd.uniformDraw, a1)
  else
    let out := policySample a1.policy state regime rnd.fwd
    let a2 := { a1 with policy := out.2 }
    if a2.minExplorationNoise < a2.explorationNoise then
      (clampV (-1) 1 (List.zipWith (· + ·) out.1.1 rnd.exploreNoise),
       { a2 with explorationNoise := a2.explorationNoise * a2.explorationDecay })
    else (out.1.1, a2)

/-- `_initialize_ensemble(num_models=3)` (lines 674–690): three clones of
the current policy with perturbed parameters (the Gaussian parameter
noise is the `perturb` argument), equal weights. -/
def initializeEnsemble (a : ProgressiveSACAgent)
    (perturb : ℕ → PolicyStateDict → PolicyStateDict) : ProgressiveSACAgent :=
  if a.ensemblePolicies.isEmpty then
    { a with
      ensemblePolicies := (List.range 3).map fun i =>
        { mkPolicy (perturb i a.policy.sd) a.actionDim with
            stage := a.policy.stage, maxStages := a.policy.maxStages }
      ensembleWeights := List.replicate 3 (1/3) }
  else a

/-- `increase_curriculum_stage(performance_metric)` (lines 652–672). -/
def increaseCurriculumStage (a : ProgressiveSACAgent) (performanceMetric : ℝ)
    (perturb : ℕ → PolicyStateDict → PolicyStateDict) :
    ProgressiveSACAgent × Bool :=
  if a.curriculumStage < 3 ∧
      a.curriculumThresholds (a.curriculumStage + 1) ≤ performanceMetric then
    let stage' := a.curriculumStage + 1
    let a1 := { a with curriculumStage := stage'
                       policy := policyIncreaseComplexity a.policy }
    let a2 :=
      if stage' = 2 then
        { a1 with explorationNoise := a1.explorationNoise * (1/2)
                  objRisk := a1.objRisk * (3/2) }
      else if stage' = 3 then
        initializeEnsemble
          { a1 with explorationNoise := a1.explorationNoise * (1/2)
                    objRegimeRobustness := a1.objRegimeRobustness * 2
                    useEnsemble := true } perturb
      else a1
    (a2, true)
  else (a, false)

/-- The results `update_parameters` (lines 521–631) obtains from autograd
and the optimizers — the stepped network parameters and optimizer states,
the stepped temperature, the Polyak-averaged target parameters, and the
TD errors written back as priorities — together with the replay-buffer
power function and random draws.  These are outputs of the numeric
backend, threaded in as explicit inputs of the model. -/
structure UpdateOracle where
  qpow : ℚ → ℚ → ℚ
  us : List ℚ
  critic1Stepped : HierarchicalCriticNetwork
  critic2Stepped : HierarchicalCriticNetwork
  critic1OptStepped : OptimState
  critic2OptStepped : OptimState
  policySdStepped : PolicyStateDict
  policyOptStepped : OptimState
  logAlphaStepped : ℝ
  critic1TargetPolyak : HierarchicalCriticNetwork
  critic2TargetPolyak : HierarchicalCriticNetwork
  tdErrors : List ℚ

/-- `update_parameters(batch_size, regime)` (lines 521–546): sample (a
call that fails — e.g. the regime branch's unbound local — makes the
whole update fail), apply the critic and policy/temperature optimizer
steps, Polyak-update the targets when `total_steps` hits the update
interval, and write the recomputed TD errors back as priorities. -/
def updateParameters (a : ProgressiveSACAgent) (batchSizeArg : Option ℕ)
    (regime : Option ℤ) (o : UpdateOracle) : Option ProgressiveSACAgent :=
  let bs := batchSizeArg.getD a.batchSize
  match PrioritizedReplayBuffer.sample o.qpow a.replayBuffer bs regime o.us with
  | none => none
  | some res =>
    let a1 := { a with
      replayBuffer := res.2
      critic1 := o.critic1Stepped, critic2 := o.critic2Stepped
      critic1Optimizer := o.critic1OptStepped, critic2Optimizer := o.critic2OptStepped
      policy := { a.policy with sd := o.policySdStepped, logAlpha := o.logAlphaStepped }
      policyOptimizer := o.policyOptStepped }
    let a2 := if a1.totalSteps % a1.targetUpdateInterval = 0 then
        { a1 with critic1Target := o.critic1TargetPolyak
                  critic2Target := o.critic2TargetPolyak }
      else a1
    some { a2 with replayBuffer :=
      PrioritizedReplayBuffer.updatePriorities a2.replayBuffer res.1.indices o.tdErrors }

/-- The artifact written by `save(path)` (lines 692–714): the five network
`state_dict()`s (for the policy this is exactly `PolicyStateDict` — the
stage attribute, `log_alpha`, `regime_log_alphas` and the smoothing state
are NOT in it), the three optimizer states, the scalar counters, the
objective weights, and the regime history/transition tables. -/
structure Checkpoint where
  policySd : PolicyStateDict
  critic1 : HierarchicalCriticNetwork
  critic2 : HierarchicalCriticNetwork
  critic1Target : HierarchicalCriticNetwork
  critic2Target : HierarchicalCriticNetwork
  policyOptimizer : OptimState
  critic1Optimizer : OptimState
  critic2Optimizer : OptimState
  totalSteps : ℕ
  episodes : ℕ
  curriculumStage : ℕ
  explorationNoise : ℝ
  objReturn : ℝ
  objRisk : ℝ
  objRegimeRobustness : ℝ
  regimeHistory : List ℤ
  regimeTransitions : List ((ℤ × ℤ) × ℕ)

/-- `save(path)` (lines 692–714). -/
def saveAgent (a : ProgressiveSACAgent) : Checkpoint :=
  { policySd := a.policy.sd
    critic1 := a.critic1, critic2 := a.critic2
    critic1Target := a.critic1Target, critic2Target := a.critic2Target
    policyOptimizer := a.policyOptimizer
    critic1Optimizer := a.critic1Optimizer, critic2Optimizer := a.critic2Optimizer
    totalSteps := a.totalSteps, episodes := a.episodes
    curriculumStage := a.curriculumStage
    explorationNoise := a.explorationNoise
    objReturn := a.objReturn, objRisk := a.objRisk
    objRegimeRobustness := a.objRegimeRobustness
    regimeHistory := a.regimeHistory, regimeTransitions := a.regimeTransitions }

/-- Strict `load_state_dict` key check: the key sets must coincide (torch
with the default `strict=True` raises `RuntimeError` on any missing or
unexpected key). -/
def keySetMatch (xs ys : List ℤ) : Bool :=
  (xs.all fun x => ys.contains x) && (ys.all fun y => xs.contains y)

/-- Whether a checkpointed critic `state_dict` can be loaded into a given
critic: the shared heads always key-match, so only the lazily grown
`regime_heads` `nn.ModuleDict` keys can differ. -/
def criticKeysMatch (c : HierarchicalCriticNetwork) (d : HierarchicalCriticNetwork) : Bool :=
  keySetMatch (c.regimeHeads.map Prod.fst) (d.regimeHeads.map Prod.fst)

/-- The field assignments `load(path)` performs once every
`load_state_dict` call has succeeded (lines 720–735). -/
def loadMerge (a : ProgressiveSACAgent) (c : Checkpoint) : ProgressiveSACAgent :=
  { a with
    policy := { a.policy with sd := c.policySd }
    critic1 := c.critic1, critic2 := c.critic2
    critic1Target := c.critic1Target, critic2Target := c.critic2Target
    policyOptimizer := c.policyOptimizer
    critic1Optimizer := c.critic1Optimizer, critic2Optimizer := c.critic2Optimizer
    totalSteps := c.totalSteps, episodes := c.episodes
    curriculumStage := c.curriculumStage
    explorationNoise := c.explorationNoise
    objReturn := c.objReturn, objRisk := c.objRisk
    objRegimeRobustness := c.objRegimeRobustness
    regimeHistory := c.regimeHistory, regimeTransitions := c.regimeTransitions }

/-- `load(path)` (lines 716–737): each `load_state_dict` call restores the
network parameters under strict key matching.  The policy's `state_dict`
keys always match (its `regime_bn` dict has the fixed keys "1","2","3"
and all stage sub-networks exist whatever the active stage is; the stage
attribute, temperature dictionaries and smoothing state are not in the
`state_dict` at all), but the critics' lazily grown `regime_heads` keys
must coincide with the checkpoint's, otherwise `load_state_dict` raises
`RuntimeError` — modelled as `none`.  On success the scalar fields are
then assigned. -/
def loadAgent (a : ProgressiveSACAgent) (c : Checkpoint) : Option ProgressiveSACAgent :=
  if (criticKeysMatch a.critic1 c.critic1 && criticKeysMatch a.critic2 c.critic2 &&
      criticKeysMatch a.critic1Target c.critic1Target &&
      criticKeysMatch a.critic2Target c.critic2Target) = true
  then some (loadMerge a c) else none

/-! ### Bounds helpers -/

/-- `Real.tanh` never exceeds 1. -/
theorem tanh_le_one (x : ℝ) : Real.tanh x ≤ 1 := by
  rw [Real.tanh_eq_sinh_div_cosh]
  exact le_of_lt ((div_lt_one (Real.cosh_pos x)).2 (Real.sinh_lt_cosh x))

/-- `Real.tanh` never drops below −1. -/
theorem neg_one_le_tanh (x : ℝ) : -1 ≤ Real.tanh x := by
  rw [Real.tanh_eq_sinh_div_cosh]
  have h := Real.sinh_lt_cosh (-x)
  rw [Real.sinh_neg, Real.cosh_neg] at h
  exact le_of_lt ((lt_div_iff₀ (Real.cosh_pos x)).2 (by linarith))

/-- Every component of a tanh-squashed tensor lies in `[-1, 1]`
(components are read through `getD` with default 0, which is itself in
the interval, so the bound is unconditional in the index). -/
theorem getD_map_tanh_mem (l : Vec) (i : ℕ) :
    -1 ≤ (l.map Real.tanh).getD i 0 ∧ (l.map Real.tanh).getD i 0 ≤ 1 := by
  by_cases h : i < l.length
  · rw [List.getD_eq_getElem _ _ (by simpa using h), List.getElem_map]
    exact ⟨neg_one_le_tanh _, tanh_le_one _⟩
  · rw [List.getD_eq_default _ _ (by simpa using h)]
    norm_num

/-- Every component of `torch.clamp(v, lo, hi)` lies in `[lo, hi]`, for an
interval containing the out-of-range default 0. -/
theorem getD_clampV_mem (lo hi : ℝ) (hlo : lo ≤ 0) (hhi : 0 ≤ hi)
    (v : Vec) (i : ℕ) :
    lo ≤ (clampV lo hi v).getD i 0 ∧ (clampV lo hi v).getD i 0 ≤ hi := by
  by_cases h : i < v.length
  · rw [clampV, List.getD_eq_getElem _ _ (by simpa using h), List.getElem_map]
    exact ⟨le_min (hlo.trans hhi) (le_max_left lo _), min_le_left hi _⟩
  · rw [clampV, List.getD_eq_default _ _ (by simpa using h)]
    exact ⟨hlo, hhi⟩

/-- The action returned by `sample` is exactly the tanh squashing of the
reparameterized pre-squash draw. -/
theorem policySample_action_eq (p : PolicyNetwork) (state : Vec)
    (regime : Option ℤ) (rnd : ForwardRand) :
    (policySample p state regime rnd).1.1 =
      (zipWith3 (fun m s z => m + s * z)
        (clampV (-10) 10 (policyForward p state regime rnd).1.1)
        ((clampV (-20) 2 (policyForward p state regime rnd).1.2).map Real.exp)
        rnd.zeta).map Real.tanh := rfl

/-- The mean returned by `sample` is the doubly clamped forward mean. -/
theorem policySample_mean_eq (p : PolicyNetwork) (state : Vec)
    (regime : Option ℤ) (rnd : ForwardRand) :
    (policySample p state regime rnd).1.2.2 =
      clampV (-10) 10 (policyForward p state regime rnd).1.1 := rfl

/-- C8: for every finite input state and any regime, every component of the
action returned by `ProgressivePolicyNetwork.sample` lies within `[-1, 1]`
— the tanh squashing bounds the action whatever the (clamped or extreme)
pre-squash mean and standard deviation are. -/
theorem policySample_action_bounded (p : PolicyNetwork) (state : Vec)
    (regime : Option ℤ) (rnd : ForwardRand) (i : ℕ) :
    -1 ≤ (policySample p state regime rnd).1.1.getD i 0 ∧
      (policySample p state regime rnd).1.1.getD i 0 ≤ 1 := by
  rw [policySample_action_eq]
  exact getD_map_tanh_mem _ i

/-! ### Concrete witness data -/

/-- A trivial critic (all-zero parameter functions, no regime heads). -/
def cCritic0 : HierarchicalCriticNetwork :=
  { featureNet := fun _ => [], mainHead := fun _ => 0, shortTermHead := fun _ => 0
    mediumTermHead := fun _ => 0, longTermHead := fun _ => 0, riskHead := fun _ => 0
    regimeHeads := [] }

/-- Policy parameters with a one-dimensional state/action: the LayerNorm
output collapses to `[0]` (which a fresh LayerNorm produces on a constant
input) and the single stage network constantly outputs
`[mean, log_std] = [5, 0]` (a reachable linear-layer parameter setting:
zero weights, biases `5` and `0`). -/
def cSd5 : PolicyStateDict :=
  { layerNormF := fun _ => [0], regimeBNF := fun _ => none, trunks := [fun _ => [5, 0]] }

/-- Constructor inputs built from `cSd5` and trivial critics. -/
def cInit5 : InitParams :=
  { policySd := cSd5, critic1Init := cCritic0, critic2Init := cCritic0
    policyOpt0 := [], critic1Opt0 := [], critic2Opt0 := [] }

/-- A freshly constructed agent over `cInit5`. -/
def cAgent5 : ProgressiveSACAgent := mkAgent 1 1 cInit5

/-- Trivial fresh regime-head initializations. -/
def cG : RegimeHeadInit :=
  { head1 := fun _ => 0, head2 := fun _ => 0, head1t := fun _ => 0, head2t := fun _ => 0 }

/-- Random draws that are all zero. -/
def cRnd0 : ActionRand :=
  { uniformDraw := [0], fwd := { meanNoise := [0], dropMask := [0], zeta := [0] }
    exploreNoise := [0] }

/-- The same draws with mean noise 1 instead of 0. -/
def cRnd1 : ActionRand :=
  { uniformDraw := [0], fwd := { meanNoise := [1], dropMask := [0], zeta := [0] }
    exploreNoise := [0] }

/-- Identity parameter perturbation for the ensemble initializer. -/
def cPerturb : ℕ → PolicyStateDict → PolicyStateDict := fun _ sd => sd

/-- C9: `select_action` with `evaluate=True` returns the pre-squash policy
mean — the `mean` output of `sample`, i.e. the clamped forward mean, never
tanh-squashed or clipped — so it is only guaranteed to lie in the clamp
range `[-10, 10]` and can lie outside the action bound `[-1, 1]`
(a concrete agent returns 5); with `evaluate=False` every returned
component lies in `[-1, 1]` (the uniform pure-exploration draw is in
`[-1,1]`, the noisy branch is clipped, and the noiseless branch is
tanh-squashed). -/
theorem selectAction_eval_presquash_mean :
    (∀ (a : ProgressiveSACAgent) (state : Vec) (regime : Option ℤ)
        (g : RegimeHeadInit) (rnd : ActionRand),
        (selectAction a state true regime g rnd).1 =
          (policySample (regimeStep a regime g).policy state regime rnd.fwd).1.2.2) ∧
    (∀ (a : ProgressiveSACAgent) (state : Vec) (regime : Option ℤ)
        (g : RegimeHeadInit) (rnd : ActionRand) (i : ℕ),
        -10 ≤ (selectAction a state true regime g rnd).1.getD i 0 ∧
          (selectAction a state true regime g rnd).1.getD i 0 ≤ 10) ∧
    (∃ (a : ProgressiveSACAgent) (state : Vec) (g : RegimeHeadInit) (rnd : ActionRand),
        1 < (selectAction a state true none g rnd).1.getD 0 0) ∧
    (∀ (a : ProgressiveSACAgent) (state : Vec) (regime : Option ℤ)
        (g : RegimeHeadInit) (rnd : ActionRand),
        (∀ j : ℕ, -1 ≤ rnd.uniformDraw.getD j 0 ∧ rnd.uniformDraw.getD j 0 ≤ 1) →
        ∀ i : ℕ, -1 ≤ (selectAction a state false regime g rnd).1.getD i 0 ∧
          (selectAction a state false regime g rnd).1.getD i 0 ≤ 1) := by
  refine ⟨fun a state regime g rnd => rfl, ?_, ?_, ?_⟩
  · intro a state regime g rnd i
    have he : (selectAction a state true regime g rnd).1 =
        clampV (-10) 10 (policyForward (regimeStep a regime g).policy state regime rnd.fwd).1.1 := rfl
    rw [he]
    exact getD_clampV_mem (-10) 10 (by norm_num) (by norm_num) _ i
  · refine ⟨cAgent5, [0], cG, cRnd0, ?_⟩
    have h : (selectAction cAgent5 [0] true none cG cRnd0).1 = [5] := by
      simp only [selectAction, regimeStep, policySample, policyForward, cAgent5, mkAgent,
        mkPolicy, cInit5, cSd5, cRnd0, clampV, zipWith3]
      norm_num
    rw [h]
    norm_num
  · intro a state regime g rnd hu i
    simp only [selectAction, Bool.false_eq_true, if_false]
    split
    · exact hu i
    · split
      · exact getD_clampV_mem (-1) 1 (by norm_num) (by norm_num) _ i
      · rw [policySample_action_eq]
        exact getD_map_tanh_mem _ i

/-- Witness for C9's hypothesis-bearing part at a concrete agent: the
non-evaluate action is within `[-1, 1]`. -/
theorem selectAction_eval_presquash_mean_witness :
    -1 ≤ (selectAction cAgent5 [0] false none cG cRnd0).1.getD 0 0 ∧
      (selectAction cAgent5 [0] false none cG cRnd0).1.getD 0 0 ≤ 1 :=
  selectAction_eval_presquash_mean.2.2.2 cAgent5 [0] none cG cRnd0
    (fun j => by cases j <;> simp [cRnd0]) 0

/-- C3 counterexample: the evaluation path is NOT deterministic.  Two
`select_action(state, evaluate=True)` calls on the same agent in the same
state differ when the `torch.randn_like` draw injected into the mean on
line 269 differs (it is drawn afresh on every forward pass, also in
evaluation mode), so equal agents with equal inputs can return different
actions. -/
theorem selectAction_eval_noise_dependent :
    (selectAction cAgent5 [0] true none cG cRnd0).1 ≠
      (selectAction cAgent5 [0] true none cG cRnd1).1 := by
  have h0 : (selectAction cAgent5 [0] true none cG cRnd0).1 = [5] := by
    simp only [selectAction, regimeStep, policySample, policyForward, cAgent5, mkAgent,
      mkPolicy, cInit5, cSd5, cRnd0, clampV, zipWith3]
    norm_num
  have h1 : (selectAction cAgent5 [0] true none cG cRnd1).1 = [5 + 1/100] := by
    simp only [selectAction, regimeStep, policySample, policyForward, cAgent5, mkAgent,
      mkPolicy, cInit5, cSd5, cRnd1, clampV, zipWith3]
    norm_num
  rw [h0, h1]
  intro h
  have := List.head_eq_of_cons_eq h
  norm_num at this

/-- The output of `sample` depends only on the fields listed here — the
persisted `state_dict` parameters plus stage, action dimension, log-std
clamps, smoothing state and the training flag. -/
theorem policySample_congr (p q : PolicyNetwork) (state : Vec) (regime : Option ℤ)
    (rnd : ForwardRand)
    (hsd : p.sd = q.sd) (hst : p.stage = q.stage) (had : p.actionDim = q.actionDim)
    (hmin : p.logStdMin = q.logStdMin) (hmax : p.logStdMax = q.logStdMax)
    (hlast : p.lastRegime = q.lastRegime) (htb : p.transitionBuffer = q.transitionBuffer)
    (hmtb : p.maxTransitionBuffer = q.maxTransitionBuffer) (htr : p.training = q.training) :
    (policySample p state regime rnd).1 = (policySample q state regime rnd).1 := by
  simp only [policySample, policyForward, hsd, hst, had, hmin, hmax, hlast, htb, hmtb, htr]

/-- `add_regime_alpha` only touches the temperature dictionary. -/
theorem addRegimeAlpha_fields (p : PolicyNetwork) (r : ℤ) :
    (addRegimeAlpha p r).sd = p.sd ∧ (addRegimeAlpha p r).stage = p.stage ∧
    (addRegimeAlpha p r).actionDim = p.actionDim ∧
    (addRegimeAlpha p r).logStdMin = p.logStdMin ∧
    (addRegimeAlpha p r).logStdMax = p.logStdMax ∧
    (addRegimeAlpha p r).lastRegime = p.lastRegime ∧
    (addRegimeAlpha p r).transitionBuffer = p.transitionBuffer ∧
    (addRegimeAlpha p r).maxTransitionBuffer = p.maxTransitionBuffer ∧
    (addRegimeAlpha p r).training = p.training := by
  unfold addRegimeAlpha; split <;> simp

/-- The regime pre-step of `select_action` either leaves the policy alone
or applies `add_regime_alpha`. -/
theorem regimeStep_policy_cases (a : ProgressiveSACAgent) (regime : Option ℤ)
    (g : RegimeHeadInit) :
    (regimeStep a regime g).policy = a.policy ∨
      ∃ r, (regimeStep a regime g).policy = addRegimeAlpha a.policy r := by
  rcases regime with _ | r
  · exact Or.inl rfl
  · simp only [regimeStep]
    split
    · exact Or.inr ⟨r, rfl⟩
    · exact Or.inl rfl

/-- The regime pre-step never changes the policy output of `sample`. -/
theorem regimeStep_sample_fst (a : ProgressiveSACAgent) (regime : Option ℤ)
    (g : RegimeHeadInit) (state : Vec) (rnd : ForwardRand) :
    (policySample (regimeStep a regime g).policy state regime rnd).1 =
      (policySample a.policy state regime rnd).1 := by
  rcases regimeStep_policy_cases a regime g with h | ⟨r, h⟩
  · rw [h]
  · rw [h]
    obtain ⟨h1, h2, h3, h4, h5, h6, h7, h8, h9⟩ := addRegimeAlpha_fields a.policy r
    exact policySample_congr _ _ state regime rnd h1 h2 h3 h4 h5 h6 h7 h8 h9

/-- C3 (amended): `load_state_dict` restores the network parameters but
not the policy's active stage, its regime-transition smoothing state or
its train/eval flag; every evaluation-mode forward injects a fresh
Gaussian draw into the mean; and the strict key check of
`load_state_dict` refuses checkpoints whose critics carry lazily grown
regime heads a fresh agent lacks.  Therefore the round trip reproduces
evaluation-mode action selection exactly when the saved agent's
non-persisted policy state still equals the fresh defaults (stage 1, no
smoothing history, training flag set, default clamps), none of its four
critics has grown a regime head, and the injected draws coincide: then
loading the artifact into a freshly constructed agent of identical
dimensions succeeds and yields the identical action. -/
theorem saveLoad_eval_roundtrip (a : ProgressiveSACAgent) (init : InitParams)
    (h1 : a.policy.stage = 1) (h2 : a.policy.lastRegime = none)
    (h3 : a.policy.transitionBuffer = ([] : List (ℤ × ℤ)))
    (h4 : a.policy.training = true)
    (h5 : a.policy.logStdMin = -20) (h6 : a.policy.logStdMax = 2)
    (h7 : a.policy.actionDim = a.actionDim)
    (h8 : a.policy.maxTransitionBuffer = 10)
    (h9 : a.critic1.regimeHeads = []) (h10 : a.critic2.regimeHeads = [])
    (h11 : a.critic1Target.regimeHeads = []) (h12 : a.critic2Target.regimeHeads = [])
    (h13 : init.critic1Init.regimeHeads = []) (h14 : init.critic2Init.regimeHeads = [])
    (state : Vec) (regime : Option ℤ) (g : RegimeHeadInit) (rnd : ActionRand) :
    loadAgent (mkAgent a.stateDim a.actionDim init) (saveAgent a) =
      some (loadMerge (mkAgent a.stateDim a.actionDim init) (saveAgent a)) ∧
    (selectAction (loadMerge (mkAgent a.stateDim a.actionDim init) (saveAgent a))
        state true regime g rnd).1 =
      (selectAction a state true regime g rnd).1 := by
  constructor
  · unfold loadAgent
    rw [if_pos]
    simp [criticKeysMatch, keySetMatch, mkAgent, saveAgent, h9, h10, h11, h12, h13, h14]
  · have hL : (selectAction (loadMerge (mkAgent a.stateDim a.actionDim init) (saveAgent a))
        state true regime g rnd).1 =
        (policySample (loadMerge (mkAgent a.stateDim a.actionDim init) (saveAgent a)).policy
          state regime rnd.fwd).1.2.2 := by
      have := regimeStep_sample_fst (loadMerge (mkAgent a.stateDim a.actionDim init) (saveAgent a))
        regime g state rnd.fwd
      exact congrArg (fun t => t.2.2) this
    have hR : (selectAction a state true regime g rnd).1 =
        (policySample a.policy state regime rnd.fwd).1.2.2 := by
      have := regimeStep_sample_fst a regime g state rnd.fwd
      exact congrArg (fun t => t.2.2) this
    rw [hL, hR]
    refine congrArg (fun t => t.2.2)
      (policySample_congr _ _ state regime rnd.fwd ?_ ?_ ?_ ?_ ?_ ?_ ?_ ?_ ?_)
    · rfl
    · simpa [loadMerge, mkAgent, mkPolicy, saveAgent] using h1.symm
    · simpa [loadMerge, mkAgent, mkPolicy, saveAgent] using h7.symm
    · simpa [loadMerge, mkAgent, mkPolicy, saveAgent] using h5.symm
    · simpa [loadMerge, mkAgent, mkPolicy, saveAgent] using h6.symm
    · simpa [loadMerge, mkAgent, mkPolicy, saveAgent] using h2.symm
    · simpa [loadMerge, mkAgent, mkPolicy, saveAgent] using h3.symm
    · simpa [loadMerge, mkAgent, mkPolicy, saveAgent] using h8.symm
    · simpa [loadMerge, mkAgent, mkPolicy, saveAgent] using h4.symm

/-- Witness for the amended C3 at a freshly constructed concrete agent. -/
theorem saveLoad_eval_roundtrip_witness :
    loadAgent (mkAgent 1 1 cInit5) (saveAgent cAgent5) =
      some (loadMerge (mkAgent 1 1 cInit5) (saveAgent cAgent5)) ∧
    (selectAction (loadMerge (mkAgent 1 1 cInit5) (saveAgent cAgent5)) [0] true none cG cRnd0).1 =
      (selectAction cAgent5 [0] true none cG cRnd0).1 :=
  saveLoad_eval_roundtrip cAgent5 cInit5 rfl rfl rfl rfl rfl rfl rfl rfl
    rfl rfl rfl rfl rfl rfl [0] none cG cRnd0

/-- Loading is strict: a checkpoint saved after a regime transition grew
the critics' regime heads cannot be loaded into a freshly constructed
agent — `load_state_dict` fails on the unexpected `regime_heads` keys. -/
theorem loadAgent_grown_heads_fails :
    loadAgent (mkAgent 1 1 cInit5)
      (saveAgent (handleRegimeTransition cAgent5 1 cG)) = none := by
  rfl

/-- C5 counterexample: advancing the curriculum from stage 1 to stage 2 at
a concrete agent grows only the policy (its stage becomes 2) and leaves
all four critic networks bit-for-bit unchanged — `increase_curriculum_stage`
calls `increase_complexity` on the policy alone (line 657), and
`HierarchicalCriticNetwork` has no staged capacity to grow at all —
against the claim that the critic networks also grow by one stage. -/
theorem curriculumAdvance_critics_unchanged :
    ((increaseCurriculumStage cAgent5 (3/5) cPerturb).1.policy.stage = 2) ∧
    ((increaseCurriculumStage cAgent5 (3/5) cPerturb).1.critic1 = cAgent5.critic1) ∧
    ((increaseCurriculumStage cAgent5 (3/5) cPerturb).1.critic2 = cAgent5.critic2) ∧
    ((increaseCurriculumStage cAgent5 (3/5) cPerturb).1.critic1Target = cAgent5.critic1Target) ∧
    ((increaseCurriculumStage cAgent5 (3/5) cPerturb).1.critic2Target = cAgent5.critic2Target) := by
  have hcond : cAgent5.curriculumStage < 3 ∧
      cAgent5.curriculumThresholds (cAgent5.curriculumStage + 1) ≤ (3/5 : ℝ) := by
    constructor
    · norm_num [cAgent5, mkAgent]
    · norm_num [cAgent5, mkAgent]
  unfold increaseCurriculumStage
  rw [if_pos hcond]
  norm_num [cAgent5, mkAgent, mkPolicy, policyIncreaseComplexity]

/-- C5 (amended): when `increase_curriculum_stage` advances the agent from
curriculum stage 1 to stage 2, only the policy network grows its capacity
by one stage; the (hierarchical, non-progressive) critic networks are left
unchanged. -/
theorem curriculum_stage2_policy_only (a : ProgressiveSACAgent) (m : ℝ)
    (pert : ℕ → PolicyStateDict → PolicyStateDict)
    (hcs : a.curriculumStage = 1) (hm : a.curriculumThresholds 2 ≤ m)
    (hp1 : a.policy.stage = 1) (hp3 : a.policy.maxStages = 3) :
    (increaseCurriculumStage a m pert).2 = true ∧
    (increaseCurriculumStage a m pert).1.curriculumStage = 2 ∧
    (increaseCurriculumStage a m pert).1.policy.stage = a.policy.stage + 1 ∧
    (increaseCurriculumStage a m pert).1.critic1 = a.critic1 ∧
    (increaseCurriculumStage a m pert).1.critic2 = a.critic2 ∧
    (increaseCurriculumStage a m pert).1.critic1Target = a.critic1Target ∧
    (increaseCurriculumStage a m pert).1.critic2Target = a.critic2Target := by
  have hcond : a.curriculumStage < 3 ∧
      a.curriculumThresholds (a.curriculumStage + 1) ≤ m := by
    rw [hcs]; exact ⟨by norm_num, hm⟩
  unfold increaseCurriculumStage
  rw [if_pos hcond]
  simp only [hcs]
  norm_num [policyIncreaseComplexity, hp1, hp3]

/-- Witness for the amended C5 at a concrete fresh agent. -/
theorem curriculum_stage2_policy_only_witness :
    (increaseCurriculumStage cAgent5 (7/10) cPerturb).2 = true ∧
    (increaseCurriculumStage cAgent5 (7/10) cPerturb).1.curriculumStage = 2 ∧
    (increaseCurriculumStage cAgent5 (7/10) cPerturb).1.policy.stage = cAgent5.policy.stage + 1 ∧
    (increaseCurriculumStage cAgent5 (7/10) cPerturb).1.critic1 = cAgent5.critic1 ∧
    (increaseCurriculumStage cAgent5 (7/10) cPerturb).1.critic2 = cAgent5.critic2 ∧
    (increaseCurriculumStage cAgent5 (7/10) cPerturb).1.critic1Target = cAgent5.critic1Target ∧
    (increaseCurriculumStage cAgent5 (7/10) cPerturb).1.critic2Target = cAgent5.critic2Target :=
  curriculum_stage2_policy_only cAgent5 (7/10) cPerturb rfl
    (by norm_num [cAgent5, mkAgent]) rfl rfl

/-- C7: for a freshly constructed agent with the default thresholds
`{1: 0.0, 2: 0.5, 3: 0.8}`, `increase_curriculum_stage(0.3)` returns
`False` and changes nothing, and a subsequent
`increase_curriculum_stage(0.6)` advances the stage to 2 and strictly
decreases the exploration noise (`0.1` halves to `0.05`). -/
theorem curriculum_threshold_scenario (init : InitParams)
    (pert : ℕ → PolicyStateDict → PolicyStateDict) :
    ((increaseCurriculumStage (mkAgent 4 2 init) (3/10) pert).2 = false) ∧
    ((increaseCurriculumStage (mkAgent 4 2 init) (3/10) pert).1 = mkAgent 4 2 init) ∧
    ((increaseCurriculumStage
        ((increaseCurriculumStage (mkAgent 4 2 init) (3/10) pert).1) (3/5)
        pert).1.curriculumStage = 2) ∧
    ((increaseCurriculumStage
        ((increaseCurriculumStage (mkAgent 4 2 init) (3/10) pert).1) (3/5)
        pert).1.explorationNoise <
      ((increaseCurriculumStage (mkAgent 4 2 init) (3/10) pert).1.explorationNoise)) := by
  have hneg : ¬((mkAgent 4 2 init).curriculumStage < 3 ∧
      (mkAgent 4 2 init).curriculumThresholds ((mkAgent 4 2 init).curriculumStage + 1) ≤ (3/10 : ℝ)) := by
    intro h
    have := h.2
    norm_num [mkAgent] at this
  have h1 : increaseCurriculumStage (mkAgent 4 2 init) (3/10) pert = (mkAgent 4 2 init, false) := by
    unfold increaseCurriculumStage
    rw [if_neg hneg]
  have hpos : (mkAgent 4 2 init).curriculumStage < 3 ∧
      (mkAgent 4 2 init).curriculumThresholds ((mkAgent 4 2 init).curriculumStage + 1) ≤ (3/5 : ℝ) := by
    constructor
    · norm_num [mkAgent]
    · norm_num [mkAgent]
  refine ⟨by rw [h1], by rw [h1], ?_, ?_⟩
  · rw [h1]
    unfold increaseCurriculumStage
    rw [if_pos hpos]
    norm_num [mkAgent, mkPolicy, policyIncreaseComplexity]
  · rw [h1]
    unfold increaseCurriculumStage
    rw [if_pos hpos]
    norm_num [mkAgent, mkPolicy, policyIncreaseComplexity]

/-- The regime pre-step never touches `total_steps`. -/
theorem regimeStep_totalSteps (a : ProgressiveSACAgent) (regime : Option ℤ)
    (g : RegimeHeadInit) : (regimeStep a regime g).totalSteps = a.totalSteps := by
  rcases regime with _ | r
  · rfl
  · simp only [regimeStep]
    split
    · rfl
    · rfl

/-- The regime pre-step never touches `start_steps`. -/
theorem regimeStep_startSteps (a : ProgressiveSACAgent) (regime : Option ℤ)
    (g : RegimeHeadInit) : (regimeStep a regime g).startSteps = a.startSteps := by
  rcases regime with _ | r
  · rfl
  · simp only [regimeStep]
    split
    · rfl
    · rfl

/-- C10: no `ProgressiveSAC` method increments `total_steps` —
`select_action`, `update_parameters` (whether or not the buffer sample
succeeds) and `increase_curriculum_stage` all leave it unchanged while
mutating their other state, and only `load` assigns it (whenever its strict state-dict key check lets it succeed).  Consequently a
freshly constructed agent keeps `total_steps = 0`, so every non-evaluate
`select_action` call takes the pure-exploration branch: it returns the
uniform draw and performs no other state change beyond the regime
bookkeeping pre-step. -/
theorem totalSteps_frame_property :
    (∀ (a : ProgressiveSACAgent) (state : Vec) (evaluate : Bool) (regime : Option ℤ)
        (g : RegimeHeadInit) (rnd : ActionRand),
        ((selectAction a state evaluate regime g rnd).2).totalSteps = a.totalSteps) ∧
    (∀ (a : ProgressiveSACAgent) (bsArg : Option ℕ) (regime : Option ℤ) (o : UpdateOracle),
        ((updateParameters a bsArg regime o).getD a).totalSteps = a.totalSteps) ∧
    (∀ (a : ProgressiveSACAgent) (m : ℝ) (pert : ℕ → PolicyStateDict → PolicyStateDict),
        ((increaseCurriculumStage a m pert).1).totalSteps = a.totalSteps) ∧
    (∀ (a : ProgressiveSACAgent) (c : Checkpoint) (b : ProgressiveSACAgent),
        loadAgent a c = some b → b.totalSteps = c.totalSteps) ∧
    (∀ (a : ProgressiveSACAgent) (state : Vec) (regime : Option ℤ)
        (g : RegimeHeadInit) (rnd : ActionRand),
        a.totalSteps = 0 → 0 < a.startSteps →
        (selectAction a state false regime g rnd).1 = rnd.uniformDraw ∧
        (selectAction a state false regime g rnd).2 = regimeStep a regime g) := by
  refine ⟨?_, ?_, ?_, ?_, ?_⟩
  · intro a state evaluate regime g rnd
    simp only [selectAction]
    split
    · exact regimeStep_totalSteps a regime g
    · split
      · exact regimeStep_totalSteps a regime g
      · split
        · exact regimeStep_totalSteps a regime g
        · exact regimeStep_totalSteps a regime g
  · intro a bsArg regime o
    simp only [updateParameters]
    rcases hs : PrioritizedReplayBuffer.sample o.qpow a.replayBuffer
        (bsArg.getD a.batchSize) regime o.us with _ | res
    · rfl
    · simp only [Option.getD_some]
      split
      · rfl
      · rfl
  · intro a m pert
    unfold increaseCurriculumStage
    split
    · dsimp only
      split
      · rfl
      · split
        · unfold initializeEnsemble
          split
          · rfl
          · rfl
        · rfl
    · rfl
  · intro a c b hb
    unfold loadAgent at hb
    split at hb
    · obtain rfl := Option.some_inj.mp hb
      rfl
    · exact absurd hb (by simp)
  · intro a state regime g rnd h0 hss
    have hlt : (regimeStep a regime g).totalSteps < (regimeStep a regime g).startSteps := by
      rw [regimeStep_totalSteps, regimeStep_startSteps, h0]
      exact hss
    constructor
    · simp only [selectAction]
      rw [if_neg (by simp), if_pos hlt]
    · simp only [selectAction]
      rw [if_neg (by simp), if_pos hlt]

/-- Witness for C10's hypothesis-bearing part at a freshly constructed
agent: the pure-exploration branch is taken. -/
theorem totalSteps_frame_property_witness :
    (selectAction cAgent5 [0] false none cG cRnd0).1 = cRnd0.uniformDraw ∧
    (selectAction cAgent5 [0] false none cG cRnd0).2 = regimeStep cAgent5 none cG :=
  totalSteps_frame_property.2.2.2.2 cAgent5 [0] none cG cRnd0 rfl
    (by norm_num [cAgent5, mkAgent])

end

end ProgSAC